/-
Verification of the Application Service Registry and Room-Interest Resolver
(src/synapse/storage/appservice.py) against its natural-language specification.

Python sets of records are embedded as duplicate-free lists built with
listInsert/listUnion (insertion order is a determinisation of the set; all
statements proved below are order-insensitive, phrased via membership).
Collaborators that are part of the repository but absent from src/
(the ApplicationService record class with its interest predicates, the
RoomsForUser record, and the membership lookup) are modelled from the spec
and marked as such in their doc comments.
-/
import Mathlib

/-- Boolean list membership, used to embed Python `x in xs` tests. -/
def listMem {α : Type} [DecidableEq α] (a : α) : List α → Bool
  | [] => false
  | b :: l => if a = b then true else listMem a l

/-- Insertion into a Python-set embedded as a duplicate-free list. -/
def listInsert {α : Type} [DecidableEq α] (l : List α) (a : α) : List α :=
  if listMem a l then l else l ++ [a]

/-- Union of a Python-set (left) with the elements of a list (right),
embedding `s |= set(xs)`. -/
def listUnion {α : Type} [DecidableEq α] (l m : List α) : List α :=
  m.foldl listInsert l

/-- Embeds Python `set(xs)`: deduplication keeping first occurrences. -/
def pySet {α : Type} [DecidableEq α] (l : List α) : List α :=
  listUnion [] l

/-- Modelled from the spec (§3, §4.1): a decoded namespace matching rule.
The registry treats rule objects as opaque; for concrete scenarios we use
full-pattern rules, either an exact string or a single-wildcard pattern
pre*suf (the spec scenario patterns !abc:* and @bot_.*:local are of this
shape). -/
inductive RegexObj where
  | exact : String → RegexObj
  | wild : String → String → RegexObj
deriving DecidableEq

/-- Does the pattern list lead (open the) candidate list? -/
def charsLead : List Char → List Char → Bool
  | [], _ => true
  | _ :: _, [] => false
  | a :: as, b :: bs => if a = b then charsLead as bs else false

/-- Does the pattern list close the candidate list? -/
def charsTrail (p c : List Char) : Bool :=
  charsLead p.reverse c.reverse

/-- Modelled from the spec (§4.1): full-pattern matching of a rule against a
candidate string.  The pattern engine itself is out of scope and injected;
this concrete matcher realises full matches for exact and single-wildcard
patterns, as the spec scenarios require. -/
def ruleMatch : RegexObj → String → Bool
  | RegexObj.exact p, c => decide (p = c)
  | RegexObj.wild pre suf, c =>
      charsLead pre.data c.data && charsTrail suf.data c.data &&
        decide (pre.data.length + suf.data.length ≤ c.data.length)

/-- Modelled from the spec (§3): the fixed, ordered namespace-kind
enumeration whose position is its persisted integer encoding. -/
inductive NSKind where
  | users : NSKind
  | aliases : NSKind
  | rooms : NSKind
deriving DecidableEq

/-- Modelled from the spec (§3): NS_LIST, the positional enumeration
[users, aliases, rooms]. -/
def NS_LIST : List NSKind := [NSKind.users, NSKind.aliases, NSKind.rooms]

/-- Modelled from the spec (§3): the namespaces mapping, one ordered rule
list per namespace kind. -/
structure Namespaces where
  users : List RegexObj
  aliases : List RegexObj
  rooms : List RegexObj
deriving DecidableEq

/-- Modelled from the spec (§3): the ApplicationService record.  url and
hsToken are nullable; namespaces is nulled by the soft-unregister
transition, hence an Option. -/
structure ApplicationService where
  token : String
  url : Option String
  hs_token : Option String
  sender : String
  namespaces : Option Namespaces
deriving DecidableEq

/-- Rules of one namespace kind carried by a service (a null namespaces
mapping carries no rules). -/
def nsRules (s : ApplicationService) (k : NSKind) : List RegexObj :=
  match s.namespaces with
  | none => []
  | some nss =>
    match k with
    | NSKind.users => nss.users
    | NSKind.aliases => nss.aliases
    | NSKind.rooms => nss.rooms

/-- Modelled from the spec (§4.1): true iff user_id equals sender or any
users-namespace rule matches user_id.  The matcher m is injected. -/
def is_interested_in_user (m : RegexObj → String → Bool)
    (s : ApplicationService) (user_id : String) : Bool :=
  decide (user_id = s.sender) || (nsRules s NSKind.users).any (fun r => m r user_id)

/-- Modelled from the spec (§4.1): true iff any aliases-namespace rule
matches the alias. -/
def is_interested_in_alias (m : RegexObj → String → Bool)
    (s : ApplicationService) (room_alias : String) : Bool :=
  (nsRules s NSKind.aliases).any (fun r => m r room_alias)

/-- Modelled from the spec (§4.1): true iff any rooms-namespace rule
matches the room id. -/
def is_interested_in_room (m : RegexObj → String → Bool)
    (s : ApplicationService) (room_id : String) : Bool :=
  (nsRules s NSKind.rooms).any (fun r => m r room_id)

/-- Modelled from the spec (§4.3, §6): the resolver output record
(roomId, userId, membershipState). -/
structure RoomsForUser where
  room_id : String
  sender : String
  membership : String
deriving DecidableEq

/-- Database state read by the resolver: the rooms table (room_id column),
the room_aliases table ((room_id, room_alias) rows), the users table (name
column) and the room-membership rows ((user_id, room_id, membership)). -/
structure RoomDB where
  rooms : List String
  room_aliases : List (String × String)
  users : List String
  memberships : List (String × String × String)

/-- Modelled from the spec (§6): the membership-lookup collaborator.
Returns the queried user's rooms restricted to the given membership
states, as (roomId, userId, membership) records. -/
def roomsForUserWithMembership (db : RoomDB) (user_id : String)
    (membership_list : List String) : List RoomsForUser :=
  (db.memberships.filter
      (fun mrow => decide (mrow.1 = user_id) && listMem mrow.2.2 membership_list)).map
    (fun mrow => RoomsForUser.mk mrow.2.1 user_id mrow.2.2)

/-- From _get_app_service_rooms_txn (steps 1 and 2): the set of room ids
matched by a rooms rule, unioned with the room ids resolved from aliases
matched by an aliases rule. -/
def as_matching_room_list (m : RegexObj → String → Bool) (db : RoomDB)
    (service : ApplicationService) : List String :=
  listUnion
    (pySet (db.rooms.filter (fun r => is_interested_in_room m service r)))
    ((db.room_aliases.filter (fun p => is_interested_in_alias m service p.2)).map Prod.fst)

/-- From _get_app_service_rooms_txn (step 3): the set of RoomsForUser
records for every interested user, restricted to joined membership. -/
def as_rooms_for_user (m : RegexObj → String → Bool) (db : RoomDB)
    (service : ApplicationService) : List RoomsForUser :=
  (db.users.filter (fun u => is_interested_in_user m service u)).foldl
    (fun acc u => listUnion acc (roomsForUserWithMembership db u ["join"])) []

/-- From _get_app_service_rooms_txn (merge step, first half): synthetic
(roomId, service.sender, "join") records for matched rooms whose roomId is
not among the step-3 room ids (known_room_ids). -/
def as_missing_rooms (m : RegexObj → String → Bool) (db : RoomDB)
    (service : ApplicationService) : List RoomsForUser :=
  ((as_matching_room_list m db service).filter
      (fun r => !listMem r ((as_rooms_for_user m db service).map RoomsForUser.room_id))).map
    (fun r => RoomsForUser.mk r service.sender "join")

/-- From _get_app_service_rooms_txn (merge step, second half): the step-3
set unioned with the synthetic records. -/
def _get_app_service_rooms_txn (m : RegexObj → String → Bool) (db : RoomDB)
    (service : ApplicationService) : List RoomsForUser :=
  listUnion (as_rooms_for_user m db service) (as_missing_rooms m db service)

/-- A row of the application_services table: internal id, token, nullable
url, nullable hs_token, sender. -/
structure ServiceRow where
  id : Nat
  token : String
  url : Option String
  hs_token : Option String
  sender : String
deriving DecidableEq

/-- A row of the application_services_regex table: owning service id,
namespace-kind integer, serialised rule payload. -/
structure RegexRow where
  as_id : Nat
  ns : Int
  regex : String
deriving DecidableEq

/-- The persistent store: the two tables, each in row order. -/
structure AppStore where
  services : List ServiceRow
  regexes : List RegexRow
deriving DecidableEq

/-- The registry after a ready population: the in-memory services cache
and the backing store. -/
structure RegistryState where
  services_cache : List ApplicationService
  store : AppStore
deriving DecidableEq

/-- From _get_as_id_txn: SELECT id FROM application_services WHERE token=?
and fetchone, i.e. the id of the first row with that token. -/
def _get_as_id_txn (store : AppStore) (token : String) : Option Nat :=
  (store.services.find? (fun r => decide (r.token = token))).map ServiceRow.id

/-- From _unregister_app_service_txn: null the url of every row with the
token, then, when the token resolves to an id, delete all regex rows of
that id; reports False when the token is unknown. -/
def _unregister_app_service_txn (store : AppStore) (token : String) :
    AppStore × Bool :=
  let store1 : AppStore :=
    { store with
      services := store.services.map
        (fun r => if r.token = token then { r with url := none } else r) }
  match _get_as_id_txn store1 token with
  | none => (store1, false)
  | some as_id =>
      ({ store1 with
         regexes := store1.regexes.filter (fun g => !decide (g.as_id = as_id)) },
       true)

/-- From unregister_app_service (run once the cache is ready): the store
transaction, then nulling url, namespaces and hs_token on every cached
service with the token. -/
def unregister_app_service (st : RegistryState) (token : String) :
    RegistryState :=
  { services_cache :=
      st.services_cache.map
        (fun s =>
          if s.token = token then
            { s with url := none, namespaces := none, hs_token := none }
          else s),
    store := (_unregister_app_service_txn st.store token).1 }

/-- Python falsiness of a nullable string: None and the empty string are
falsy. -/
def falsyOpt : Option String → Bool
  | none => true
  | some s => decide (s = "")

/-- The cache half of update_app_service: replace the first cached entry
with the same token, or append the service when none matches. -/
def updateCacheList : List ApplicationService → ApplicationService →
    List ApplicationService
  | [], service => [service]
  | c :: rest, service =>
      if service.token = c.token then service :: rest
      else c :: updateCacheList rest service

/-- The regex rows inserted by _update_app_service_txn: one row per rule,
namespace encoded by its position in NS_LIST, payload serialised by the
injected dumps.  A null namespaces mapping contributes no rows. -/
def serviceRegexInserts (dumps : RegexObj → String) (as_id : Nat)
    (service : ApplicationService) : List RegexRow :=
  match service.namespaces with
  | none => []
  | some nss =>
      (nss.users.map (fun r => RegexRow.mk as_id 0 (dumps r))) ++
      (nss.aliases.map (fun r => RegexRow.mk as_id 1 (dumps r))) ++
      (nss.rooms.map (fun r => RegexRow.mk as_id 2 (dumps r)))

/-- From _update_app_service_txn: resolve the token to an id (reporting
False and writing nothing when unknown), update url/hs_token/sender on
that row, delete the old regex rows of that id and insert the current
ones. -/
def _update_app_service_txn (dumps : RegexObj → String) (store : AppStore)
    (service : ApplicationService) : AppStore × Bool :=
  match _get_as_id_txn store service.token with
  | none => (store, false)
  | some as_id =>
      ({ services :=
           store.services.map
             (fun r =>
               if r.id = as_id then
                 { r with url := service.url, hs_token := service.hs_token,
                          sender := service.sender }
               else r),
         regexes :=
           store.regexes.filter (fun g => !decide (g.as_id = as_id)) ++
             serviceRegexInserts dumps as_id service },
       true)

/-- The StoreError raised by update_app_service validation. -/
structure StoreError where
  code : Nat
  msg : String
deriving DecidableEq

/-- From update_app_service (run once the cache is ready): validation of
token/url (400) and hs_token (500) before any write; on success the store
transaction followed by the cache replacement. -/
def update_app_service (dumps : RegexObj → String) (st : RegistryState)
    (service : ApplicationService) : Except StoreError RegistryState :=
  if service.token = "" ∨ falsyOpt service.url = true then
    Except.error (StoreError.mk 400 "Token and url must be specified.")
  else if falsyOpt service.hs_token = true then
    Except.error (StoreError.mk 500 "No HS token")
  else
    Except.ok
      { services_cache := updateCacheList st.services_cache service,
        store := (_update_app_service_txn dumps st.store service).1 }

/-- From get_app_services: the cache, verbatim. -/
def get_app_services (st : RegistryState) : List ApplicationService :=
  st.services_cache

/-- From get_app_service_by_user_id: first cached service whose sender is
the queried user id. -/
def get_app_service_by_user_id (st : RegistryState) (user_id : String) :
    Option ApplicationService :=
  st.services_cache.find? (fun s => decide (s.sender = user_id))

/-- From get_app_service_by_token: on the cache path, the first cached
service with the token; on the from_cache=False path the body falls
through both TODOs and the generator produces no value (None). -/
def get_app_service_by_token (st : RegistryState) (token : String)
    (from_cache : Bool) : Option ApplicationService :=
  if from_cache then
    st.services_cache.find? (fun s => decide (s.token = token))
  else
    none

/-- The resolved state of a Twisted deferred: a success value or a
failure. -/
inductive DeferredResult (α : Type) where
  | success : α → DeferredResult α
  | failure : StoreError → DeferredResult α
deriving DecidableEq

/-- From log_failure: the errback logs the failure and returns None, i.e.
it does not re-raise (returns no failure). -/
def log_failure_handles : StoreError → Option StoreError :=
  fun _ => none

/-- Twisted addErrback semantics on a resolved deferred: a success passes
through; on a failure the handler runs, and a handler that returns a
non-failure (None) converts the deferred to a success. -/
def addErrback (h : StoreError → Option StoreError) :
    DeferredResult Unit → DeferredResult Unit
  | DeferredResult.success a => DeferredResult.success a
  | DeferredResult.failure e =>
      match h e with
      | none => DeferredResult.success ()
      | some e2 => DeferredResult.failure e2

/-- The registry right after construction: the cache list and the shared
readiness deferred. -/
structure StoreInit where
  services_cache : List ApplicationService
  cache_defer : DeferredResult Unit
deriving DecidableEq

/-- From ApplicationServiceStore.__init__: the cache starts empty, the
population deferred fills it (or fails before touching it), and
addErrback(log_failure) is installed on the shared readiness deferred. -/
def initStore (pop : DeferredResult (List ApplicationService)) : StoreInit :=
  match pop with
  | DeferredResult.success l =>
      StoreInit.mk l (addErrback log_failure_handles (DeferredResult.success ()))
  | DeferredResult.failure e =>
      StoreInit.mk [] (addErrback log_failure_handles (DeferredResult.failure e))

/-- From get_app_services: yield the shared readiness deferred (a failure
there propagates as a failure of the call), then return the cache. -/
def get_app_services_gated (st : StoreInit) :
    DeferredResult (List ApplicationService) :=
  match st.cache_defer with
  | DeferredResult.failure e => DeferredResult.failure e
  | DeferredResult.success _ => DeferredResult.success st.services_cache

/-- A result row of the population join query: service columns plus the
(possibly null) namespace integer and the serialised rule payload of one
regex row. -/
structure PopulateRow where
  token : String
  url : Option String
  hs_token : Option String
  sender : String
  ns : Option Int
  regex : String
deriving DecidableEq

/-- A service record under construction during population. -/
structure ServiceBuild where
  url : Option String
  hs_token : Option String
  sender : String
  namespaces : Namespaces
deriving DecidableEq

/-- Python list indexing semantics: a non-negative index must be below the
length, a negative index wraps by the length, anything else raises
IndexError (None here). -/
def pyIndex (len : Nat) (i : Int) : Option Nat :=
  if 0 ≤ i then (if i < (len : Int) then some i.toNat else none)
  else (if 0 ≤ i + (len : Int) then some (i + (len : Int)).toNat else none)

/-- NS_LIST[ns_int] with Python indexing: the namespace kind selected by a
stored namespace integer, None on IndexError. -/
def nsKindOfInt (i : Int) : Option NSKind :=
  (pyIndex NS_LIST.length i).bind (fun n => NS_LIST.get? n)

/-- Append a decoded rule to the rule list of one namespace kind. -/
def addRuleToNs (nss : Namespaces) (k : NSKind) (r : RegexObj) : Namespaces :=
  match k with
  | NSKind.users => { nss with users := nss.users ++ [r] }
  | NSKind.aliases => { nss with aliases := nss.aliases ++ [r] }
  | NSKind.rooms => { nss with rooms := nss.rooms ++ [r] }

/-- Does the grouping dict already hold the token? -/
def assocHas (l : List (String × ServiceBuild)) (k : String) : Bool :=
  l.any (fun p => decide (p.1 = k))

/-- Apply f to the entry of the grouping dict with key k. -/
def assocUpdate (l : List (String × ServiceBuild)) (k : String)
    (f : ServiceBuild → ServiceBuild) : List (String × ServiceBuild) :=
  l.map (fun p => if p.1 = k then (p.1, f p.2) else p)

/-- From the _populate_cache row loop: ensure the token has a skeleton
entry, then, when the namespace integer is non-null, attach the decoded
rule to the kind NS_LIST[ns_int]; an IndexError (invalid index) or a
decode failure is logged and the rule skipped.  The decoder (simplejson)
is injected; None embeds JSONDecodeError. -/
def populateStep (decode : String → Option RegexObj)
    (acc : List (String × ServiceBuild)) (row : PopulateRow) :
    List (String × ServiceBuild) :=
  let acc1 :=
    if assocHas acc row.token then acc
    else acc ++ [(row.token, ServiceBuild.mk row.url row.hs_token row.sender
        (Namespaces.mk [] [] []))]
  match row.ns with
  | none => acc1
  | some i =>
      match nsKindOfInt i with
      | none => acc1
      | some k =>
          match decode row.regex with
          | none => acc1
          | some robj =>
              assocUpdate acc1 row.token
                (fun b => { b with namespaces := addRuleToNs b.namespaces k robj })

/-- From _populate_cache: group the join rows by token, then construct one
ApplicationService per distinct token, carrying the rules that decoded
successfully. -/
def _populate_cache (decode : String → Option RegexObj)
    (results : List PopulateRow) : List ApplicationService :=
  (results.foldl (populateStep decode) []).map
    (fun p => ApplicationService.mk p.1 p.2.url p.2.hs_token p.2.sender
        (some p.2.namespaces))

/-- C1 scenario service: interested in every user (single match-all users
rule), no rooms or aliases rules. -/
def svcC1 : ApplicationService :=
  ApplicationService.mk "tokC1" (some "http://c1") (some "hsC1") "@asC1:local"
    (some (Namespaces.mk [RegexObj.wild "" ""] [] []))

/-- C1 scenario database: two users, both joined to the same room. -/
def dbC1 : RoomDB :=
  RoomDB.mk [] [] ["@u1:local", "@u2:local"]
    [("@u1:local", "!r:local", "join"), ("@u2:local", "!r:local", "join")]

/-- C2 scenario service: interested in room !r1:local by direct rule, by
an alias rule, and in user @bot:local. -/
def svcC2 : ApplicationService :=
  ApplicationService.mk "tokC2" (some "http://c2") (some "hsC2") "@asC2:local"
    (some (Namespaces.mk [RegexObj.exact "@bot:local"]
      [RegexObj.exact "#alias:local"] [RegexObj.exact "!r1:local"]))

/-- C2 scenario database: !r1:local exists, its alias resolves to it, and
the interested user @bot:local is joined to it. -/
def dbC2 : RoomDB :=
  RoomDB.mk ["!r1:local"] [("!r1:local", "#alias:local")] ["@bot:local"]
    [("@bot:local", "!r1:local", "join")]

/-- C2 witness service: one direct room rule, no users. -/
def svcC2w : ApplicationService :=
  ApplicationService.mk "tokC2w" (some "http://c2w") (some "hsC2w") "@asC2w:local"
    (some (Namespaces.mk [] [] [RegexObj.exact "!m:local"]))

/-- C2 witness database: the matched room with no joined interested user. -/
def dbC2w : RoomDB :=
  RoomDB.mk ["!m:local"] [] [] []

/-- C7 scenario service S: rooms rule !abc:*, no alias rules, users rule
matching bot users on the local server. -/
def svcC7 : ApplicationService :=
  ApplicationService.mk "tokC7" (some "http://c7") (some "hsC7") "@asC7:local"
    (some (Namespaces.mk [RegexObj.wild "@bot_" ":local"] []
      [RegexObj.wild "!abc:" ""]))

/-- C7 scenario database: two rooms, two users, @bot_1:local joined only
to !xyz:local. -/
def dbC7 : RoomDB :=
  RoomDB.mk ["!abc:local", "!xyz:local"] [] ["@bot_1:local", "@carol:local"]
    [("@bot_1:local", "!xyz:local", "join")]

/-- Concrete decoder for population scenarios: the payload "bad" fails to
decode, every other payload decodes to an exact rule. -/
def decode0 : String → Option RegexObj :=
  fun s => if s = "bad" then none else some (RegexObj.exact s)

/-- A population row whose namespace integer is the negative in-range
index -1 and whose payload decodes successfully. -/
def rowNeg : PopulateRow :=
  PopulateRow.mk "t1" (some "http://t1") (some "hs1") "@t1:local" (some (-1)) "x"

/-- Ten population rows for one service: nine decodable users rules and
one malformed payload. -/
def tenRows : List PopulateRow :=
  [PopulateRow.mk "as1" (some "http://as1") (some "hs") "@as1:local" (some 0) "r1",
   PopulateRow.mk "as1" (some "http://as1") (some "hs") "@as1:local" (some 0) "r2",
   PopulateRow.mk "as1" (some "http://as1") (some "hs") "@as1:local" (some 0) "r3",
   PopulateRow.mk "as1" (some "http://as1") (some "hs") "@as1:local" (some 0) "r4",
   PopulateRow.mk "as1" (some "http://as1") (some "hs") "@as1:local" (some 0) "bad",
   PopulateRow.mk "as1" (some "http://as1") (some "hs") "@as1:local" (some 0) "r5",
   PopulateRow.mk "as1" (some "http://as1") (some "hs") "@as1:local" (some 0) "r6",
   PopulateRow.mk "as1" (some "http://as1") (some "hs") "@as1:local" (some 0) "r7",
   PopulateRow.mk "as1" (some "http://as1") (some "hs") "@as1:local" (some 0) "r8",
   PopulateRow.mk "as1" (some "http://as1") (some "hs") "@as1:local" (some 0) "r9"]

/-- A population row with an out-of-range namespace integer. -/
def rowBigNs : PopulateRow :=
  PopulateRow.mk "t2" (some "http://t2") (some "hs2") "@t2:local" (some 5) "r1"

/-- A trivial serialiser for witnesses. -/
def dumps0 : RegexObj → String :=
  fun _ => "rule"

/-- An empty registry state for witnesses. -/
def st0 : RegistryState :=
  RegistryState.mk [] (AppStore.mk [] [])

/-- A service with a missing url, for the C4 witness. -/
def svcNoUrl : ApplicationService :=
  ApplicationService.mk "tokW" none (some "hsW") "@w:local"
    (some (Namespaces.mk [] [] []))

/-- A service with token and url but no hs_token, for the C4 witness. -/
def svcNoHs : ApplicationService :=
  ApplicationService.mk "tokW" (some "http://w") none "@w:local"
    (some (Namespaces.mk [] [] []))

/-- The cached service of the C5 witness registry. -/
def svcC5 : ApplicationService :=
  ApplicationService.mk "tokC5" (some "http://c5") (some "hsC5") "@c5:local"
    (some (Namespaces.mk [RegexObj.exact "@a:local"] [] []))

/-- The persisted row of the C5 witness registry. -/
def rowC5 : ServiceRow :=
  ServiceRow.mk 7 "tokC5" (some "http://c5") (some "hsC5") "@c5:local"

/-- The C5 witness registry: one cached service, its row, and two of its
regex rows. -/
def stC5 : RegistryState :=
  RegistryState.mk [svcC5]
    (AppStore.mk [rowC5] [RegexRow.mk 7 0 "ru", RegexRow.mk 7 2 "rr"])

/-- A valid service for the C8 witness. -/
def svcC8 : ApplicationService :=
  ApplicationService.mk "tokC8" (some "http://c8") (some "hsC8") "@c8:local"
    (some (Namespaces.mk [] [] [RegexObj.exact "!z:local"]))

/-- The C8 witness registry: the token already present in cache and store
with older field values. -/
def stC8 : RegistryState :=
  RegistryState.mk
    [ApplicationService.mk "tokC8" (some "http://old") (some "hsOld") "@old:local"
      (some (Namespaces.mk [] [] []))]
    (AppStore.mk [ServiceRow.mk 3 "tokC8" (some "http://old") (some "hsOld") "@old:local"]
      [RegexRow.mk 3 1 "old"])

/-- A valid service for the C9 witness, whose token has no persisted
row. -/
def svcC9 : ApplicationService :=
  ApplicationService.mk "tokC9" (some "http://c9") (some "hsC9") "@c9:local"
    (some (Namespaces.mk [RegexObj.exact "@b:local"] [] []))

/-- The C9 witness registry: a non-empty store that does not know
tokC9. -/
def stC9 : RegistryState :=
  RegistryState.mk []
    (AppStore.mk [ServiceRow.mk 1 "other" (some "http://o") (some "hsO") "@o:local"]
      [RegexRow.mk 1 0 "ro"])

/-- The concrete population failure of the C3 counterexample. -/
def e0 : StoreError :=
  StoreError.mk 500 "store unreachable"

/-- A population row whose rule is dropped by the row loop: its namespace
integer raises IndexError under Python indexing of NS_LIST, or its payload
fails to decode. -/
def badRuleRow (decode : String → Option RegexObj) (row : PopulateRow) : Prop :=
  ∃ i, row.ns = some i ∧ (nsKindOfInt i = none ∨ decode row.regex = none)

theorem listMem_iff {α : Type} [DecidableEq α] (a : α) (l : List α) :
    listMem a l = true ↔ a ∈ l := by
  induction l with
  | nil => simp [listMem]
  | cons b l ih =>
      by_cases h : a = b
      · simp [listMem, h]
      · simp [listMem, h, ih]

theorem mem_listInsert {α : Type} [DecidableEq α] (a b : α) (l : List α) :
    a ∈ listInsert l b ↔ a ∈ l ∨ a = b := by
  unfold listInsert
  by_cases h : listMem b l = true
  · rw [if_pos h]
    constructor
    · exact fun hm => Or.inl hm
    · intro hm
      rcases hm with hm | hm
      · exact hm
      · rw [hm]; exact (listMem_iff b l).mp h
  · rw [if_neg h]
    simp

theorem mem_listUnion {α : Type} [DecidableEq α] (a : α) (l m : List α) :
    a ∈ listUnion l m ↔ a ∈ l ∨ a ∈ m := by
  induction m generalizing l with
  | nil => simp [listUnion]
  | cons b m ih =>
      show a ∈ listUnion (listInsert l b) m ↔ _
      rw [ih, mem_listInsert]
      simp [or_assoc]

theorem find?_map_of_pred_eq {α : Type} (g : α → α) (p : α → Bool)
    (l : List α) (h : ∀ a, p (g a) = p a) :
    (l.map g).find? p = (l.find? p).map g := by
  induction l with
  | nil => rfl
  | cons a l ih =>
      by_cases hp : p a = true
      · rw [List.map_cons, List.find?_cons_of_pos _ (by rw [h a]; exact hp),
          List.find?_cons_of_pos _ hp]
        rfl
      · rw [List.map_cons, List.find?_cons_of_neg _ (by rw [h a]; exact hp),
          List.find?_cons_of_neg _ hp, ih]

theorem find?_updateCacheList (l : List ApplicationService)
    (s : ApplicationService) :
    (updateCacheList l s).find? (fun c => decide (c.token = s.token)) = some s := by
  induction l with
  | nil =>
      show List.find? _ [s] = some s
      rw [List.find?_cons_of_pos _ (by simp)]
  | cons c rest ih =>
      by_cases h : s.token = c.token
      · show List.find? _ (if s.token = c.token then s :: rest
          else c :: updateCacheList rest s) = some s
        rw [if_pos h, List.find?_cons_of_pos _ (by simp)]
      · show List.find? _ (if s.token = c.token then s :: rest
          else c :: updateCacheList rest s) = some s
        rw [if_neg h, List.find?_cons_of_neg _ (by simp; exact fun hc => h hc.symm), ih]

/-- C10: for every registry state and every token, get_app_service_by_token
called with from_cache = false returns none, regardless of the cache and
the store: the database-backed lookup path is unimplemented and the call
falls through without producing a result. -/
theorem C10_from_cache_false_returns_none :
    ∀ (st : RegistryState) (token : String),
      get_app_service_by_token st token false = none := by
  intro st token
  rfl

/-- C4: update_app_service with a missing or empty token or url fails with
the caller-facing 400 StoreError, and (for an otherwise valid service)
with a missing hs_token fails with the internal 500 StoreError; in both
cases the call returns the error before any write, so the caller's cache
and store are untouched (an error carries no successor state in this
embedding). -/
theorem C4_update_validation :
    ∀ (dumps : RegexObj → String) (st : RegistryState)
      (service : ApplicationService),
      ((service.token = "" ∨ falsyOpt service.url = true) →
        update_app_service dumps st service =
          Except.error (StoreError.mk 400 "Token and url must be specified."))
    ∧ (service.token ≠ "" → falsyOpt service.url = false →
        falsyOpt service.hs_token = true →
        update_app_service dumps st service =
          Except.error (StoreError.mk 500 "No HS token")) := by
  intro dumps st service
  constructor
  · intro h
    unfold update_app_service
    rw [if_pos h]
  · intro h1 h2 h3
    unfold update_app_service
    rw [if_neg ?_, if_pos h3]
    rintro (hc | hc)
    · exact h1 hc
    · rw [h2] at hc
      exact Bool.false_ne_true hc

/-- Witness for C4 at concrete inputs: a service with a null url fails
with 400, a service with token and url but no hs_token fails with 500. -/
theorem C4_update_validation_witness :
    update_app_service dumps0 st0 svcNoUrl =
      Except.error (StoreError.mk 400 "Token and url must be specified.") ∧
    update_app_service dumps0 st0 svcNoHs =
      Except.error (StoreError.mk 500 "No HS token") :=
  ⟨(C4_update_validation dumps0 st0 svcNoUrl).1 (Or.inr rfl),
   (C4_update_validation dumps0 st0 svcNoHs).2 (by decide) rfl rfl⟩

/-- C3 counterexample: with the population deferred failed at e0, the
shared readiness deferred does not resolve as a failure (the errback
installed in __init__ consumes it), and the dependent get_app_services
call succeeds against the empty cache instead of failing fast. -/
theorem C3_counterexample :
    (¬ ∃ e, (initStore (DeferredResult.failure e0)).cache_defer =
        DeferredResult.failure e)
    ∧ get_app_services_gated (initStore (DeferredResult.failure e0)) =
        DeferredResult.success [] := by
  constructor
  · rintro ⟨e, h⟩
    rw [show (initStore (DeferredResult.failure e0)).cache_defer =
        DeferredResult.success () from rfl] at h
    exact DeferredResult.noConfusion h
  · rfl

/-- C3 amended: when the initial population fails, log_failure (installed
with addErrback and returning no failure) swallows the error, so the
shared readiness deferred resolves as a success for every subsequent
waiter and dependent operations proceed silently against the empty cache
rather than failing fast. -/
theorem C3_amended_errback_swallows :
    ∀ (e : StoreError),
      (initStore (DeferredResult.failure e)).cache_defer =
        DeferredResult.success ()
    ∧ (initStore (DeferredResult.failure e)).services_cache = []
    ∧ get_app_services_gated (initStore (DeferredResult.failure e)) =
        DeferredResult.success [] := by
  intro e
  exact ⟨rfl, rfl, rfl⟩

/-- C7: in the concrete scenario (rooms rule !abc:*, users rule
@bot_.*:local, rooms !abc:local and !xyz:local, users @bot_1:local joined
only to !xyz:local and @carol:local), the resolver returns exactly the two
records (!abc:local, S.sender, join) and (!xyz:local, @bot_1:local, join). -/
theorem C7_scenario :
    ∀ rec : RoomsForUser,
      rec ∈ _get_app_service_rooms_txn ruleMatch dbC7 svcC7 ↔
        (rec = RoomsForUser.mk "!abc:local" "@asC7:local" "join" ∨
         rec = RoomsForUser.mk "!xyz:local" "@bot_1:local" "join") := by
  intro rec
  have h : _get_app_service_rooms_txn ruleMatch dbC7 svcC7 =
      [RoomsForUser.mk "!xyz:local" "@bot_1:local" "join",
       RoomsForUser.mk "!abc:local" "@asC7:local" "join"] := by decide
  rw [h]
  constructor
  · intro hm
    rcases List.mem_cons.mp hm with hm | hm
    · exact Or.inr hm
    · exact Or.inl (List.mem_singleton.mp hm)
  · rintro (hm | hm)
    · rw [hm]; exact List.mem_cons_of_mem _ (List.mem_singleton.mpr rfl)
    · rw [hm]; exact List.mem_cons_self _ _

/-- Witness for C7: the synthetic record for !abc:local is in the
resolver's result. -/
theorem C7_scenario_witness :
    RoomsForUser.mk "!abc:local" "@asC7:local" "join" ∈
      _get_app_service_rooms_txn ruleMatch dbC7 svcC7 :=
  (C7_scenario (RoomsForUser.mk "!abc:local" "@asC7:local" "join")).mpr (Or.inl rfl)

/-- C2: a synthetic record (roomId, service.sender, join) is in the
resolver result for exactly those pattern-matched roomIds absent from the
step-3 room ids; every result record is either a step-3 record or such a
synthetic fallback; every step-3 record is in the result; and in the
concrete instance where a service is interested in !r1:local by direct
rule, by an alias, and via the joined user @bot:local, the result holds
exactly one record for !r1:local, sourced from the joined-user path. -/
theorem C2_synthetic_fallback :
    (∀ (m : RegexObj → String → Bool) (db : RoomDB)
        (s : ApplicationService) (r : String),
        r ∈ as_matching_room_list m db s →
        r ∉ (as_rooms_for_user m db s).map RoomsForUser.room_id →
        RoomsForUser.mk r s.sender "join" ∈ _get_app_service_rooms_txn m db s)
    ∧ (∀ (m : RegexObj → String → Bool) (db : RoomDB)
        (s : ApplicationService) (rec : RoomsForUser),
        rec ∈ _get_app_service_rooms_txn m db s →
        rec ∈ as_rooms_for_user m db s ∨
          (rec.room_id ∈ as_matching_room_list m db s ∧
           rec.room_id ∉ (as_rooms_for_user m db s).map RoomsForUser.room_id ∧
           rec = RoomsForUser.mk rec.room_id s.sender "join"))
    ∧ (∀ (m : RegexObj → String → Bool) (db : RoomDB)
        (s : ApplicationService) (rec : RoomsForUser),
        rec ∈ as_rooms_for_user m db s →
        rec ∈ _get_app_service_rooms_txn m db s)
    ∧ _get_app_service_rooms_txn ruleMatch dbC2 svcC2 =
        [RoomsForUser.mk "!r1:local" "@bot:local" "join"] := by
  refine ⟨?_, ?_, ?_, by decide⟩
  · intro m db s r hr hnk
    apply (mem_listUnion _ _ _).mpr
    right
    apply List.mem_map_of_mem
    apply List.mem_filter.mpr
    refine ⟨hr, ?_⟩
    have hfalse : listMem r ((as_rooms_for_user m db s).map RoomsForUser.room_id) = false := by
      cases h : listMem r ((as_rooms_for_user m db s).map RoomsForUser.room_id)
      · rfl
      · exact absurd ((listMem_iff _ _).mp h) hnk
    rw [hfalse]
    rfl
  · intro m db s rec hrec
    rcases (mem_listUnion _ _ _).mp hrec with h | h
    · exact Or.inl h
    · right
      rcases List.mem_map.mp h with ⟨t, ht, hteq⟩
      rcases List.mem_filter.mp ht with ⟨htm, htb⟩
      have htk : t ∉ (as_rooms_for_user m db s).map RoomsForUser.room_id := by
        intro hmem
        rw [(listMem_iff _ _).mpr hmem] at htb
        simp at htb
      have hrid : rec.room_id = t := by rw [← hteq]
      rw [hrid]
      exact ⟨htm, htk, by rw [← hteq]⟩
  · intro m db s rec hrec
    exact (mem_listUnion _ _ _).mpr (Or.inl hrec)

/-- Witness for C2: for the service matching only the membership-free room
!m:local, the synthetic record appears in the result. -/
theorem C2_synthetic_fallback_witness :
    RoomsForUser.mk "!m:local" "@asC2w:local" "join" ∈
      _get_app_service_rooms_txn ruleMatch dbC2w svcC2w :=
  C2_synthetic_fallback.1 ruleMatch dbC2w svcC2w "!m:local" (by decide) (by decide)

/-- C1 counterexample: for the service interested in every user, with two
users joined to the same room, the resolver result contains two distinct
records carrying the same roomId — the claimed at-most-one-record-per-room
invariant fails on the membership-derived path. -/
theorem C1_counterexample :
    ∃ r1 r2 : RoomsForUser,
      r1 ∈ _get_app_service_rooms_txn ruleMatch dbC1 svcC1 ∧
      r2 ∈ _get_app_service_rooms_txn ruleMatch dbC1 svcC1 ∧
      r1.room_id = r2.room_id ∧ r1 ≠ r2 := by
  refine ⟨RoomsForUser.mk "!r:local" "@u1:local" "join",
    RoomsForUser.mk "!r:local" "@u2:local" "join", ?_, ?_, rfl, ?_⟩
  · decide
  · decide
  · decide

/-- C1 amended: uniqueness by roomId holds against the synthetic fallback
records only — two distinct result records with the same roomId can arise,
and only when both come from the membership-derived step (one per
interested joined user); a synthetic record never shares its roomId with
any other result record. -/
theorem C1_amended_dedup :
    ∀ (m : RegexObj → String → Bool) (db : RoomDB)
      (s : ApplicationService) (r1 r2 : RoomsForUser),
      r1 ∈ _get_app_service_rooms_txn m db s →
      r2 ∈ _get_app_service_rooms_txn m db s →
      r1.room_id = r2.room_id → r1 ≠ r2 →
      r1 ∈ as_rooms_for_user m db s ∧ r2 ∈ as_rooms_for_user m db s := by
  intro m db s r1 r2 h1 h2 hid hne
  have hmiss : ∀ rec : RoomsForUser, rec ∈ as_missing_rooms m db s →
      rec.room_id ∉ (as_rooms_for_user m db s).map RoomsForUser.room_id ∧
      rec = RoomsForUser.mk rec.room_id s.sender "join" := by
    intro rec hrec
    rcases List.mem_map.mp hrec with ⟨t, ht, hteq⟩
    rcases List.mem_filter.mp ht with ⟨_, htb⟩
    have hrid : rec.room_id = t := by rw [← hteq]
    constructor
    · rw [hrid]
      intro hmem
      rw [(listMem_iff _ _).mpr hmem] at htb
      simp at htb
    · rw [← hteq]
  rcases (mem_listUnion _ _ _).mp h1 with ha1 | hm1 <;>
    rcases (mem_listUnion _ _ _).mp h2 with ha2 | hm2
  · exact ⟨ha1, ha2⟩
  · exact absurd (hid ▸ List.mem_map_of_mem RoomsForUser.room_id ha1)
      (hmiss r2 hm2).1
  · exact absurd (hid ▸ List.mem_map_of_mem RoomsForUser.room_id ha2)
      ((hmiss r1 hm1).1)
  · exfalso
    apply hne
    rw [(hmiss r1 hm1).2, (hmiss r2 hm2).2, hid]

/-- Witness for the amended C1: applied to the two distinct records for
!r:local in the concrete result, placing the first in the
membership-derived set. -/
theorem C1_amended_dedup_witness :
    RoomsForUser.mk "!r:local" "@u1:local" "join" ∈
      as_rooms_for_user ruleMatch dbC1 svcC1 :=
  (C1_amended_dedup ruleMatch dbC1 svcC1
    (RoomsForUser.mk "!r:local" "@u1:local" "join")
    (RoomsForUser.mk "!r:local" "@u2:local" "join")
    (by decide) (by decide) rfl (by decide)).1

/-- C8: for every valid service (non-empty token, non-falsy url, present
hs_token), update_app_service succeeds and a following
get_app_service_by_token on the service's token returns the very service
value, so token, url, hs_token, sender and namespaces round-trip
exactly. -/
theorem C8_update_roundtrip :
    ∀ (dumps : RegexObj → String) (st : RegistryState)
      (service : ApplicationService),
      service.token ≠ "" → falsyOpt service.url = false →
      falsyOpt service.hs_token = false →
      ∃ st1, update_app_service dumps st service = Except.ok st1 ∧
        get_app_service_by_token st1 service.token true = some service := by
  intro dumps st service h1 h2 h3
  refine ⟨RegistryState.mk (updateCacheList st.services_cache service)
    ((_update_app_service_txn dumps st.store service).1), ?_, ?_⟩
  · unfold update_app_service
    rw [if_neg ?_, if_neg ?_]
    · rw [h3]
      exact Bool.false_ne_true
    · rintro (hc | hc)
      · exact h1 hc
      · rw [h2] at hc
        exact Bool.false_ne_true hc
  · unfold get_app_service_by_token
    rw [if_pos rfl]
    exact find?_updateCacheList st.services_cache service

/-- Witness for C8 at a registry already holding older values for the
token. -/
theorem C8_update_roundtrip_witness :
    ∃ st1, update_app_service dumps0 stC8 svcC8 = Except.ok st1 ∧
      get_app_service_by_token st1 svcC8.token true = some svcC8 :=
  C8_update_roundtrip dumps0 stC8 svcC8 (by decide) rfl rfl

/-- C9: for a valid service whose token has no persisted row,
update_app_service completes without error, the store transaction is a
no-op, and the cache is nevertheless mutated so that
get_app_service_by_token returns the new service. -/
theorem C9_update_unknown_token :
    ∀ (dumps : RegexObj → String) (st : RegistryState)
      (service : ApplicationService),
      service.token ≠ "" → falsyOpt service.url = false →
      falsyOpt service.hs_token = false →
      st.store.services.find? (fun r => decide (r.token = service.token)) = none →
      ∃ st1, update_app_service dumps st service = Except.ok st1 ∧
        st1.store = st.store ∧
        get_app_service_by_token st1 service.token true = some service := by
  intro dumps st service h1 h2 h3 h4
  have htxn : _update_app_service_txn dumps st.store service = (st.store, false) := by
    unfold _update_app_service_txn _get_as_id_txn
    rw [h4]
    rfl
  refine ⟨RegistryState.mk (updateCacheList st.services_cache service) st.store,
    ?_, rfl, ?_⟩
  · unfold update_app_service
    rw [if_neg ?_, if_neg ?_]
    · rw [htxn]
    · rw [h3]
      exact Bool.false_ne_true
    · rintro (hc | hc)
      · exact h1 hc
      · rw [h2] at hc
        exact Bool.false_ne_true hc
  · unfold get_app_service_by_token
    rw [if_pos rfl]
    exact find?_updateCacheList st.services_cache service

/-- Witness for C9: updating with the unknown token tokC9 leaves the
store of stC9 unchanged yet caches the service. -/
theorem C9_update_unknown_token_witness :
    ∃ st1, update_app_service dumps0 stC9 svcC9 = Except.ok st1 ∧
      st1.store = stC9.store ∧
      get_app_service_by_token st1 svcC9.token true = some svcC9 :=
  C9_update_unknown_token dumps0 stC9 svcC9 (by decide) rfl rfl (by decide)

theorem unreg_txn_eq (store : AppStore) (token : String) (row0 : ServiceRow)
    (h : store.services.find? (fun r => decide (r.token = token)) = some row0) :
    _unregister_app_service_txn store token =
      (AppStore.mk
        (store.services.map
          (fun r => if r.token = token then { r with url := none } else r))
        (store.regexes.filter (fun g => !decide (g.as_id = row0.id))), true) := by
  have hid : (if row0.token = token then { row0 with url := none } else row0).id =
      row0.id := by
    by_cases hr : row0.token = token <;> simp [hr]
  have hfind : List.find? (fun r : ServiceRow => decide (r.token = token))
      (store.services.map
        (fun r => if r.token = token then { r with url := none } else r)) =
      some (if row0.token = token then { row0 with url := none } else row0) := by
    rw [find?_map_of_pred_eq
      (fun r : ServiceRow => if r.token = token then { r with url := none } else r)
      (fun r : ServiceRow => decide (r.token = token)) store.services ?_, h]
    · rfl
    · intro r
      by_cases hr : r.token = token <;> simp [hr]
  unfold _unregister_app_service_txn _get_as_id_txn
  simp only [hfind, Option.map_some', hid]

/-- C5: for a token present in the cache (first matching cached service
s0) and in the store (first matching row row0), unregister_app_service
followed by get_app_service_by_token returns a service with that token
whose url and namespaces are nulled, while the persisted row survives with
its token and hs_token intact (only its url nulled) and every namespace
rule row of that service is deleted — a soft delete. -/
theorem C5_soft_unregister :
    ∀ (st : RegistryState) (token : String) (s0 : ApplicationService)
      (row0 : ServiceRow),
      st.services_cache.find? (fun s => decide (s.token = token)) = some s0 →
      st.store.services.find? (fun r => decide (r.token = token)) = some row0 →
      (∃ s1, get_app_service_by_token (unregister_app_service st token) token true =
            some s1 ∧
          s1.token = s0.token ∧ s1.url = none ∧ s1.namespaces = none ∧
          s1.hs_token = none)
      ∧ ({ row0 with url := none } : ServiceRow) ∈
          (unregister_app_service st token).store.services
      ∧ (∀ g ∈ (unregister_app_service st token).store.regexes,
          g.as_id ≠ row0.id) := by
  intro st token s0 row0 hc hs
  have hs0tok : s0.token = token := by
    have := List.find?_some hc
    exact of_decide_eq_true this
  have hrow0tok : row0.token = token := by
    have := List.find?_some hs
    exact of_decide_eq_true this
  have hcachepred : ∀ s : ApplicationService,
      (fun s : ApplicationService => decide (s.token = token))
          (if s.token = token then
            { s with url := none, namespaces := none, hs_token := none }
          else s) =
        (fun s : ApplicationService => decide (s.token = token)) s := by
    intro s
    by_cases hr : s.token = token <;> simp [hr]
  have htxn := unreg_txn_eq st.store token row0 hs
  refine ⟨?_, ?_, ?_⟩
  · refine ⟨{ s0 with url := none, namespaces := none, hs_token := none },
      ?_, hs0tok ▸ rfl, rfl, rfl, rfl⟩
    unfold get_app_service_by_token unregister_app_service
    rw [if_pos rfl]
    simp only
    rw [find?_map_of_pred_eq _ _ _ hcachepred, hc]
    simp only [Option.map_some']
    rw [if_pos hs0tok]
  · show _ ∈ ((_unregister_app_service_txn st.store token).1).services
    rw [htxn]
    have : ({ row0 with url := none } : ServiceRow) =
        (fun r : ServiceRow => if r.token = token then { r with url := none } else r)
          row0 := by
      show ({ row0 with url := none } : ServiceRow) =
        if row0.token = token then { row0 with url := none } else row0
      rw [if_pos hrow0tok]
    rw [this]
    exact List.mem_map_of_mem _ (List.mem_of_find?_eq_some hs)
  · intro g hg
    rw [show (unregister_app_service st token).store =
        (_unregister_app_service_txn st.store token).1 from rfl, htxn] at hg
    have := (List.mem_filter.mp hg).2
    intro heq
    rw [heq] at this
    simp at this

/-- Witness for C5 at the concrete registry stC5 holding tokC5 in cache
and store with two regex rows. -/
theorem C5_soft_unregister_witness :
    ({ rowC5 with url := none } : ServiceRow) ∈
      (unregister_app_service stC5 "tokC5").store.services :=
  (C5_soft_unregister stC5 "tokC5" svcC5 rowC5 (by decide) (by decide)).2.1

/-- C6 counterexample: a rule row carrying namespace integer -1 — not a
valid position of the three-element enumeration — is not skipped: Python
list indexing wraps, so its successfully decoded payload is attached to
the rooms namespace, and the constructed service does not have the empty
namespaces the claim predicts. -/
theorem C6_counterexample :
    _populate_cache decode0 [rowNeg] =
      [ApplicationService.mk "t1" (some "http://t1") (some "hs1") "@t1:local"
        (some (Namespaces.mk [] [] [RegexObj.exact "x"]))]
    ∧ ¬ _populate_cache decode0 [rowNeg] =
        [ApplicationService.mk "t1" (some "http://t1") (some "hs1") "@t1:local"
          (some (Namespaces.mk [] [] []))] := by
  constructor
  · decide
  · decide

/-- C6 amended: a rule row whose payload fails to decode, or whose
namespace integer is not a valid Python index of the three-element
enumeration (at least 3, or below -3), is logged and skipped without
aborting the owning service or the population — replacing such a row by
the same row with a null namespace integer leaves the population result
unchanged, so the service is still constructed with every rule that
decoded successfully (one malformed row among ten yields nine attached
rules); a negative in-range integer, however, wraps Python-style
(-1 selects rooms) instead of being skipped. -/
theorem C6_amended_bad_rows_skipped :
    (∀ (decode : String → Option RegexObj) (pre suf : List PopulateRow)
        (row : PopulateRow),
        badRuleRow decode row →
        _populate_cache decode (pre ++ row :: suf) =
          _populate_cache decode (pre ++ { row with ns := none } :: suf))
    ∧ _populate_cache decode0 tenRows =
        [ApplicationService.mk "as1" (some "http://as1") (some "hs") "@as1:local"
          (some (Namespaces.mk
            [RegexObj.exact "r1", RegexObj.exact "r2", RegexObj.exact "r3",
             RegexObj.exact "r4", RegexObj.exact "r5", RegexObj.exact "r6",
             RegexObj.exact "r7", RegexObj.exact "r8", RegexObj.exact "r9"]
            [] []))]
    ∧ nsKindOfInt 3 = none ∧ nsKindOfInt (-4) = none
    ∧ nsKindOfInt (-1) = some NSKind.rooms := by
  refine ⟨?_, by decide, by decide, by decide, by decide⟩
  intro decode pre suf row hbad
  unfold _populate_cache
  rw [List.foldl_append, List.foldl_append]
  have hstep : ∀ acc, populateStep decode acc row =
      populateStep decode acc ({ row with ns := none }) := by
    intro acc
    obtain ⟨i, hns, hbad2⟩ := hbad
    unfold populateStep
    simp only [hns]
    cases hk : nsKindOfInt i with
    | none => rfl
    | some k =>
        rcases hbad2 with hb | hb
        · rw [hk] at hb
          exact Option.noConfusion hb
        · simp only [hk, hb]
  rw [show List.foldl (populateStep decode)
      (List.foldl (populateStep decode) [] pre) (row :: suf) =
      List.foldl (populateStep decode)
        (populateStep decode (List.foldl (populateStep decode) [] pre) row)
        suf from rfl]
  rw [hstep]
  rfl

/-- Witness for the amended C6: a row with out-of-range namespace integer
5 populates identically to the same row with a null namespace integer. -/
theorem C6_amended_bad_rows_skipped_witness :
    _populate_cache decode0 [rowBigNs] =
      _populate_cache decode0 [{ rowBigNs with ns := none }] :=
  C6_amended_bad_rows_skipped.1 decode0 [] [] rowBigNs ⟨5, rfl, Or.inl (by decide)⟩

/-- Witness for the amended C3 at the concrete failure e0. -/
theorem C3_amended_errback_swallows_witness :
    get_app_services_gated (initStore (DeferredResult.failure e0)) =
      DeferredResult.success [] :=
  (C3_amended_errback_swallows e0).2.2

/-- Witness for C10 at a concrete registry and token. -/
theorem C10_from_cache_false_returns_none_witness :
    get_app_service_by_token stC5 "tokC5" false = none :=
  C10_from_cache_false_returns_none stC5 "tokC5"
